import Mathlib

/-!
Verification of the google-maps-mcp-server core against its specification.

The Python source is shallowly embedded: response envelopes become a
`Response` structure (an `Option` field models the presence or absence of a
dict key), Python floats become exact rationals (`ℚ`), raised exceptions
become `Except` values, and the tenacity retry decorator becomes an explicit
bounded loop that records the wait computed before each retry.
-/

namespace GmapsMcp

/-! ## Response envelopes (`BaseTool._format_response`, tools/base.py) -/

/-- Python truthiness of an optional string (the `if error:` test in
`BaseTool._format_response`): `None` and `""` are falsy. -/
def pyTruthyStr : Option String → Bool
  | none => false
  | some s => s ≠ ""

/-- The response envelope built by `BaseTool._format_response`
(tools/base.py, lines 73-87).  `data = some v` means the `"data"` key is
present with value `v` (the value itself may model Python `None` when `α`
is an `Option` type); `error = some s` means the `"error"` key is present. -/
structure Response (α : Type) where
  status : String
  tool : String
  data : Option α
  error : Option String
  deriving Repr, DecidableEq

/-- Embedding of `BaseTool._format_response`: the `status` and `tool` keys
are always set from the arguments; if `error` is truthy the `"error"` key is
set, otherwise the `"data"` key is set to the `data` argument. -/
def format_response (name : String) (data : α) (status : String)
    (error : Option String) : Response α :=
  if pyTruthyStr error then
    { status := status, tool := name, data := none, error := error }
  else
    { status := status, tool := name, data := some data, error := none }

/-- Exactly one of the `data` / `error` keys is present in the envelope. -/
def exactlyOneKey (r : Response α) : Prop :=
  (r.data.isSome ∧ r.error = none) ∨ (r.data = none ∧ r.error.isSome)

/-- The `status` field agrees with which of the two keys is present. -/
def statusConsistent (r : Response α) : Prop :=
  (r.data.isSome ↔ r.status = "success") ∧ (r.error.isSome ↔ r.status = "error")

/-! ## Dispatcher (`call_tool`, server.py lines 81-115) -/

/-- A registered tool as the dispatcher sees it: a name and an `execute`
function that either returns an envelope dict or raises an exception
carrying a message (`Except.error`). -/
structure MTool (β α : Type) where
  name : String
  execute : β → Except String (Response α)

/-- One `TextContent` item returned by `call_tool`: either a bare string
(the unknown-tool branch builds `f"Unknown tool: {name}"` directly) or the
JSON serialization of an envelope dict (`json.dumps(result)`). -/
inductive Content (α : Type) where
  | rawText (s : String)
  | jsonEnvelope (r : Response α)
  deriving Repr

/-- Whether a content item is the serialization of an envelope dict. -/
def isEnvelopeContent : Content α → Bool
  | .jsonEnvelope _ => true
  | .rawText _ => false

/-- Embedding of `call_tool` (server.py lines 81-115): resolve the first
tool whose name matches (`next((t for t in self.tools if t.name == name),
None)`); unknown names yield the bare message; a raised exception from
`execute` is caught and converted to an error envelope dict. -/
def call_tool (tools : List (MTool β α)) (name : String) (arguments : β) :
    List (Content α) :=
  match tools.find? (fun t => t.name == name) with
  | none => [Content.rawText ("Unknown tool: " ++ name)]
  | some t =>
    match t.execute arguments with
    | Except.ok result => [Content.jsonEnvelope result]
    | Except.error e =>
        [Content.jsonEnvelope
          { status := "error", tool := name, data := none, error := some e }]

/-! ## Retry wrapper (`BaseTool._execute_with_retry`, tools/base.py 58-66)

The decorator is `@retry(stop=stop_after_attempt(3),
wait=wait_exponential(multiplier=1, min=2, max=10),
retry=retry_if_exception_type((googlemaps.exceptions.TransportError,)))`.
-/

/-- The error taxonomy of the googlemaps client: transport-level errors,
API-level errors (quota, permission, zero results, ...) and anything else. -/
inductive GmapsError where
  | transport (msg : String)
  | api (msg : String)
  | other (msg : String)
  deriving Repr, DecidableEq

/-- `retry_if_exception_type((TransportError,))`: only transport errors are
retried. -/
def isRetryable : GmapsError → Bool
  | .transport _ => true
  | _ => false

/-- tenacity's `wait_exponential(multiplier, min, max)` evaluated after the
failure of attempt `attemptNumber` (1-based):
`max(max(0, min), min(multiplier * 2 ** (attempt_number - 1), max))`. -/
def wait_exponential (multiplier minWait maxWait : ℚ) (attemptNumber : ℕ) : ℚ :=
  max (max 0 minWait) (min (multiplier * 2 ^ (attemptNumber - 1)) maxWait)

/-- Observable trace of one `_execute_with_retry` run: the final outcome,
how many attempts were made, and the waits slept before each retry (in
order). -/
structure RetryTrace (α : Type) where
  outcome : Except GmapsError α
  attempts : ℕ
  waits : List ℚ
  deriving Repr

/-- The tenacity retry loop: attempt `k` runs `op k`; on success the loop
returns; on failure it retries exactly when the error is retryable and the
stop condition `stop_after_attempt(3)` has not been reached (attempt number
still below 3), sleeping `wait_exponential(1, 2, 10)` of the just-failed
attempt number first.  When retries are exhausted the final attempt's error
is surfaced (tenacity wraps it in a `RetryError`; the underlying outcome is
this error).  `fuel` is an upper bound on the number of retries, used only
to make the recursion structural. -/
def runRetry (op : ℕ → Except GmapsError α) (fuel k : ℕ) : RetryTrace α :=
  match op k with
  | .ok v => ⟨.ok v, k, []⟩
  | .error e =>
    match fuel with
    | 0 => ⟨.error e, k, []⟩
    | fuel' + 1 =>
      if isRetryable e = true ∧ k < 3 then
        let rest := runRetry op fuel' (k + 1)
        ⟨rest.outcome, rest.attempts, wait_exponential 1 2 10 k :: rest.waits⟩
      else ⟨.error e, k, []⟩

/-- Embedding of `BaseTool._execute_with_retry`: start at attempt 1 with
enough fuel for the `stop_after_attempt(3)` policy. -/
def execute_with_retry (op : ℕ → Except GmapsError α) : RetryTrace α :=
  runRetry op 3 1

/-! ## Rounding (Python's `round(x, 1)`) -/

/-- Python's `round` to an integer: round-half-to-even. -/
def roundHalfEven (q : ℚ) : ℤ :=
  if q - ⌊q⌋ < 1 / 2 then ⌊q⌋
  else if q - ⌊q⌋ > 1 / 2 then ⌊q⌋ + 1
  else if 2 ∣ ⌊q⌋ then ⌊q⌋ else ⌊q⌋ + 1

/-- Python's `round(x, 1)`. -/
def roundTo1 (q : ℚ) : ℚ := (roundHalfEven (q * 10) : ℚ) / 10

/-! ## Traffic congestion (`TrafficConditionsTool.execute`, tools/traffic.py) -/

/-- The fields of `route["legs"][0]` the congestion algorithm reads:
`leg["duration"]["value"]` and the optional `leg["duration_in_traffic"]`
(`none` models the key being absent). -/
structure TrafficLeg where
  duration : ℚ
  durationInTraffic : Option ℚ
  deriving Repr, DecidableEq

/-- The derived fields of the traffic analysis the claims are about. -/
structure TrafficAnalysis where
  delay_minutes : ℚ
  congestion_level : String
  deriving Repr, DecidableEq

/-- The congestion computation of `TrafficConditionsTool.execute`
(tools/traffic.py lines 96-128): a missing `duration_in_traffic` defaults to
the normal duration, `delay = max(0, traffic - normal)` is reported in
minutes rounded to one decimal, and the level is Heavy above ratio 1.3,
Moderate above 1.1, otherwise Low (with `duration == 0` guarded to Low). -/
def trafficAnalysis (leg : TrafficLeg) : TrafficAnalysis :=
  let duration_seconds := leg.duration
  let in_traffic_seconds := leg.durationInTraffic.getD duration_seconds
  let delay_seconds := max 0 (in_traffic_seconds - duration_seconds)
  let delay_minutes := delay_seconds / 60
  let congestion_level :=
    if duration_seconds > 0 then
      if in_traffic_seconds / duration_seconds > 13 / 10 then "Heavy"
      else if in_traffic_seconds / duration_seconds > 11 / 10 then "Moderate"
      else "Low"
    else "Low"
  ⟨roundTo1 delay_minutes, congestion_level⟩

/-- The envelope-level behavior of `TrafficConditionsTool.execute` after the
directions call returned `result`: an empty result is the "No route found"
error envelope, otherwise the first route's first leg is analyzed and
wrapped in a success envelope. -/
def executeTraffic (result : List TrafficLeg) : Response (Option TrafficAnalysis) :=
  match result with
  | [] => format_response "get_traffic_conditions" none "error" (some "No route found")
  | leg :: _ =>
      format_response "get_traffic_conditions" (some (trafficAnalysis leg)) "success" none

/-! ## Route safety (`RouteSafetyTool.execute`, tools/safety.py) -/

/-- The leg fields the safety scorer reads. -/
structure SafetyLeg where
  duration : ℚ
  durationInTraffic : Option ℚ
  deriving Repr, DecidableEq

/-- Traffic risk and sub-score (tools/safety.py lines 92-104): ratio above
1.4 is High (4.0), above 1.1 Moderate (7.0), otherwise Low (10.0); a zero
duration keeps the initial Low/10.0. -/
def trafficRiskScore (leg : SafetyLeg) : String × ℚ :=
  let duration_seconds := leg.duration
  let in_traffic_seconds := leg.durationInTraffic.getD duration_seconds
  if duration_seconds > 0 then
    if in_traffic_seconds / duration_seconds > 7 / 5 then ("High", 4)
    else if in_traffic_seconds / duration_seconds > 11 / 10 then ("Moderate", 7)
    else ("Low", 10)
  else ("Low", 10)

/-- Road risk, sub-score and observed maximum speed limit (tools/safety.py
lines 116-156).  The input is the outcome of the snap-to-roads /
speed-limits step: `Except.error` models the step raising (caught by the
`except Exception` that logs `speed_limit_check_failed_continuing`), and
`Except.ok speeds` the list of speed limits collected (empty when the snap
result was empty or carried no `speedLimit` entries).  On failure or an
empty list the initial Unknown / 5.0 / 0 survive. -/
def roadRiskScore (speedStep : Except String (List ℚ)) : String × ℚ × ℚ :=
  match speedStep with
  | .error _ => ("Unknown", 5, 0)
  | .ok speeds =>
    match speeds.max? with
    | none => ("Unknown", 5, 0)
    | some m =>
      if m > 100 then ("High Speed", 6, m)
      else if m > 60 then ("Moderate Speed", 8, m)
      else ("Low Speed", 9, m)

/-- Time-of-day risk (tools/safety.py lines 161-167): departure hour below
6 or above 20 is Night (6.0), otherwise Day (10.0). -/
def timeRiskScore (hour : ℕ) : String × ℚ :=
  if hour < 6 ∨ hour > 20 then ("Night", 6) else ("Day", 10)

/-- The assessment dict built by `RouteSafetyTool.execute` (safety.py lines
179-193), with the nested `details` flattened. -/
structure SafetyAssessment where
  safety_score : ℚ
  risk_level : String
  traffic_risk : String
  road_risk : String
  time_risk : String
  max_speed_limit_kmh : Option ℚ
  risk_factors : List String
  deriving Repr, DecidableEq

/-- Assembly of the safety assessment (safety.py lines 158-193): the
composite score is `traffic*4 + road*4 + time*2` rounded to one decimal,
the risk level thresholds are 60 and 80, a zero max speed limit is reported
as null, and risk factors are appended in the fixed order. -/
def buildAssessment (leg : SafetyLeg) (speedStep : Except String (List ℚ))
    (hour : ℕ) : SafetyAssessment :=
  let tr := trafficRiskScore leg
  let rr := roadRiskScore speedStep
  let ti := timeRiskScore hour
  let overall_score := tr.2 * 4 + rr.2.1 * 4 + ti.2 * 2
  { safety_score := roundTo1 overall_score
    risk_level :=
      if overall_score < 60 then "High"
      else if overall_score < 80 then "Moderate" else "Low"
    traffic_risk := tr.1
    road_risk := rr.1
    time_risk := ti.1
    max_speed_limit_kmh := if rr.2.2 > 0 then some rr.2.2 else none
    risk_factors :=
      (if tr.1 ≠ "Low" then ["Traffic: " ++ tr.1 ++ " congestion"] else []) ++
      (if rr.1 = "High Speed" then
        ["Road: High speed limit (" ++ toString rr.2.2 ++ " km/h)"] else []) ++
      (if ti.1 = "Night" then ["Conditions: Night driving"] else []) }

/-- The envelope-level behavior of `RouteSafetyTool.execute` after the
directions call returned `result`: an empty result is the "No route found"
error envelope, otherwise the assessment of the first route's first leg is
wrapped in a success envelope (the secondary speed-limit step only feeds
`buildAssessment` and can never fail the request). -/
def executeSafety (result : List SafetyLeg) (speedStep : Except String (List ℚ))
    (hour : ℕ) : Response (Option SafetyAssessment) :=
  match result with
  | [] => format_response "calculate_route_safety_factors" none "error" (some "No route found")
  | leg :: _ =>
      format_response "calculate_route_safety_factors"
        (some (buildAssessment leg speedStep hour)) "success" none

/-! ## GPS trace compliance (`GPSTraceAnalyzer`, examples/gps_trace_analyzer.py) -/

/-- One raw GPS point: `{"lat": ..., "lng": ..., "speed": ...}` with the
speed key optional (`gps_trace[i].get("speed", 0)`). -/
structure GPSPoint where
  lat : ℚ
  lng : ℚ
  speed : Option ℚ
  deriving Repr, DecidableEq

/-- One snapped point from the snap-to-roads result. -/
structure SnappedPoint where
  location : ℚ × ℚ
  place_id : String
  deriving Repr, DecidableEq

/-- One recorded speeding violation (gps_trace_analyzer.py lines 103-110). -/
structure Violation where
  location : ℚ × ℚ
  speed_limit : ℚ
  vehicle_speed : ℚ
  overage : ℚ
  overage_percent : ℚ
  severity : String
  deriving Repr, DecidableEq

/-- `GPSTraceAnalyzer._get_violation_severity` (lines 129-140): thresholds
on the overage percentage, all strict. -/
def get_violation_severity (vehicle_speed speed_limit : ℚ) : String :=
  let overage_percent := (vehicle_speed - speed_limit) / speed_limit * 100
  if overage_percent > 50 then "CRITICAL"
  else if overage_percent > 25 then "HIGH"
  else if overage_percent > 10 then "MEDIUM"
  else "LOW"

/-- The violation dict appended for a speeding point (lines 103-110). -/
def mkViolation (point : SnappedPoint) (speed_limit vehicle_speed : ℚ) : Violation :=
  { location := point.location
    speed_limit := speed_limit
    vehicle_speed := vehicle_speed
    overage := vehicle_speed - speed_limit
    overage_percent := (vehicle_speed - speed_limit) / speed_limit * 100
    severity := get_violation_severity vehicle_speed speed_limit }

/-- `gps_trace[i].get("speed", 0)`; out-of-range indices are never read
because of the `i < len(gps_trace)` guard. -/
def vehicleSpeedAt (gps_trace : List GPSPoint) (i : ℕ) : ℚ :=
  match gps_trace.get? i with
  | some p => p.speed.getD 0
  | none => 0

/-- The body of the `for i, point in enumerate(snapped_points)` loop
(lines 95-111): a point contributes a violation exactly when its segment's
speed limit is known and truthy (non-null, non-zero), the index is within
the trace, and the vehicle speed exceeds the limit. -/
def detectViolationsFrom (speed_limits : String → Option ℚ)
    (gps_trace : List GPSPoint) : List (ℕ × SnappedPoint) → List Violation
  | [] => []
  | (i, point) :: rest =>
    let tail := detectViolationsFrom speed_limits gps_trace rest
    match speed_limits point.place_id with
    | none => tail
    | some sl =>
      if sl ≠ 0 ∧ i < gps_trace.length then
        if vehicleSpeedAt gps_trace i > sl then
          mkViolation point sl (vehicleSpeedAt gps_trace i) :: tail
        else tail
      else tail

/-- Step 3 of `GPSTraceAnalyzer.analyze_trace`: scan the enumerated snapped
points for speeding violations. -/
def detect_violations (snapped_points : List SnappedPoint)
    (gps_trace : List GPSPoint) (speed_limits : String → Option ℚ) :
    List Violation :=
  detectViolationsFrom speed_limits gps_trace snapped_points.enum

/-- One step of the severity penalty loop of
`_calculate_compliance_score` (lines 152-159). -/
def severityPenalty (compliance : ℚ) (v : Violation) : ℚ :=
  if v.severity = "CRITICAL" then compliance - 5
  else if v.severity = "HIGH" then compliance - 3
  else if v.severity = "MEDIUM" then compliance - 1
  else compliance

/-- `GPSTraceAnalyzer._calculate_compliance_score` (lines 142-161): 100 for
an empty trace; otherwise `(1 - violations/points) * 100` penalized per
violation severity and clamped to `[0, 100]`. -/
def calculate_compliance_score (gps_trace : List GPSPoint)
    (violations : List Violation) : ℚ :=
  if gps_trace = [] then 100
  else
    let violation_rate := (violations.length : ℚ) / (gps_trace.length : ℚ)
    let compliance := (1 - violation_rate) * 100
    max 0 (min 100 (violations.foldl severityPenalty compliance))

/-- One step of `dict.fromkeys` insertion: a key already seen is ignored,
a new key is appended at the end. -/
def insertKey (acc : List String) (x : String) : List String :=
  if x ∈ acc then acc else acc ++ [x]

/-- `list(dict.fromkeys(place_ids))` (line 71): duplicates removed keeping
the first occurrence of each key, in order. -/
def unique_place_ids (place_ids : List String) : List String :=
  place_ids.foldl insertKey []

/-- The speed-limit lookup invocations made by `analyze_trace` step 2: a
single call to `speed_tool.execute` whose `place_ids` argument is the
deduplicated list (lines 66-78). -/
def speed_limit_calls (place_ids : List String) : List (List String) :=
  [unique_place_ids place_ids]

end GmapsMcp

namespace GmapsMcp

/-! ## Theorems -/

/-- C1 counterexample: `_format_response` derives key presence from the
truthiness of `error` alone and never checks it against `status`, so the
code's own error-path call shape `_format_response(None, status="error",
error=str(e))` with an empty exception message yields an envelope whose
status is "error" while the present key is `data` — the claimed consistency
between `status` and key presence fails. -/
theorem c1_status_consistency_counterexample :
    ¬ statusConsistent
        (format_response "get_directions" (none : Option Unit) "error" (some "")) := by
  unfold statusConsistent format_response pyTruthyStr
  decide

/-- C1 amended: every `_format_response` output carries exactly one of the
`data`/`error` keys; the `status` field is consistent with key presence
whenever the caller passes `status="success"` with a falsy error and
`status="error"` with a truthy (non-empty) error — the two call shapes used
at every call site of the repository. -/
theorem c1_envelope_invariant (name : String) (data : α) (status : String)
    (error : Option String) :
    exactlyOneKey (format_response name data status error) ∧
    ((status = "success" ∧ pyTruthyStr error = false) ∨
      (status = "error" ∧ pyTruthyStr error = true) →
      statusConsistent (format_response name data status error)) := by
  constructor
  · unfold exactlyOneKey format_response
    by_cases h : pyTruthyStr error = true
    · rw [if_pos h]
      refine Or.inr ⟨rfl, ?_⟩
      cases error with
      | none => simp [pyTruthyStr] at h
      | some s => simp
    · rw [if_neg h]
      exact Or.inl ⟨rfl, rfl⟩
  · rintro (⟨hs, he⟩ | ⟨hs, he⟩) <;>
      unfold statusConsistent format_response <;>
      simp [he, hs]
    cases error with
    | none => simp [pyTruthyStr] at he
    | some s => simp

/-- Witness for C1: the success call shape at a concrete input. -/
theorem c1_envelope_invariant_witness :
    exactlyOneKey (format_response "get_directions" (some "ok" : Option String) "success" none) ∧
    statusConsistent (format_response "get_directions" (some "ok" : Option String) "success" none) :=
  ⟨(c1_envelope_invariant "get_directions" (some "ok") "success" none).1,
    (c1_envelope_invariant "get_directions" (some "ok") "success" none).2 (Or.inl ⟨rfl, rfl⟩)⟩

/-- C2 counterexample: for an unknown tool name the dispatcher returns a
bare `TextContent` string `"Unknown tool: <name>"`, not the serialization
of an envelope dict with `status="error"` — the map under
`isEnvelopeContent` is `[false]`. -/
theorem c2_unknown_tool_counterexample :
    call_tool ([] : List (MTool Unit (Option Unit))) "does_not_exist" () =
      [Content.rawText "Unknown tool: does_not_exist"] ∧
    (call_tool ([] : List (MTool Unit (Option Unit))) "does_not_exist" ()).map
      isEnvelopeContent = [false] := by
  constructor <;> rfl

/-- C2 amended: the dispatcher is total (it never raises): an unknown name
yields the plain-text message identifying the name (not an error envelope);
for a resolved tool, an exception escaping `execute` is caught and
converted to an error envelope naming the failing tool and the exception's
message, and a normal result is serialized as-is. -/
theorem c2_dispatch_total (tools : List (MTool β α)) (name : String) (args : β) :
    (tools.find? (fun t => t.name == name) = none →
      call_tool tools name args = [Content.rawText ("Unknown tool: " ++ name)]) ∧
    (∀ t msg, tools.find? (fun t => t.name == name) = some t →
      t.execute args = Except.error msg →
      call_tool tools name args =
        [Content.jsonEnvelope
          { status := "error", tool := name, data := none, error := some msg }]) ∧
    (∀ t r, tools.find? (fun t => t.name == name) = some t →
      t.execute args = Except.ok r →
      call_tool tools name args = [Content.jsonEnvelope r]) := by
  refine ⟨fun h => ?_, fun t msg h1 h2 => ?_, fun t r h1 h2 => ?_⟩
  · simp only [call_tool]
    rw [h]
  · simp only [call_tool]
    rw [h1]
    dsimp only
    rw [h2]
  · simp only [call_tool]
    rw [h1]
    dsimp only
    rw [h2]

/-- Witness for C2: a concrete registered tool whose `execute` raises is
converted into the error envelope. -/
theorem c2_dispatch_total_witness :
    call_tool [(⟨"get_directions", fun _ => Except.error "boom"⟩ : MTool Unit (Option Unit))]
        "get_directions" () =
      [Content.jsonEnvelope
        { status := "error", tool := "get_directions", data := none, error := some "boom" }] :=
  (c2_dispatch_total [⟨"get_directions", fun _ => Except.error "boom"⟩]
      "get_directions" ()).2.1 ⟨"get_directions", fun _ => Except.error "boom"⟩ "boom" rfl rfl


/-- One-step evaluation of the retry loop on a successful attempt. -/
theorem runRetry_ok (op : ℕ → Except GmapsError α) (fuel k : ℕ) (v : α)
    (h : op k = .ok v) : runRetry op fuel k = ⟨.ok v, k, []⟩ := by
  rw [runRetry.eq_def, h]

/-- One-step evaluation of the retry loop on a retryable failure below the
attempt cap: the wait for the just-failed attempt is recorded and the loop
moves to the next attempt. -/
theorem runRetry_error_retry (op : ℕ → Except GmapsError α) (fuel k : ℕ)
    (e : GmapsError) (h : op k = .error e) (hr : isRetryable e = true)
    (hk : k < 3) :
    runRetry op (fuel + 1) k =
      ⟨(runRetry op fuel (k + 1)).outcome, (runRetry op fuel (k + 1)).attempts,
        wait_exponential 1 2 10 k :: (runRetry op fuel (k + 1)).waits⟩ := by
  rw [runRetry.eq_def, h]
  simp [hr, hk]

/-- One-step evaluation of the retry loop on a failure with no fuel left
(never reached from `execute_with_retry`, which supplies ample fuel). -/
theorem runRetry_error_zero (op : ℕ → Except GmapsError α) (k : ℕ)
    (e : GmapsError) (h : op k = .error e) :
    runRetry op 0 k = ⟨.error e, k, []⟩ := by
  rw [runRetry.eq_def, h]

/-- One-step evaluation of the retry loop on a failure that is not retried
(non-retryable error or attempt cap reached): the error surfaces. -/
theorem runRetry_error_stop (op : ℕ → Except GmapsError α) (fuel k : ℕ)
    (e : GmapsError) (h : op k = .error e)
    (hc : ¬(isRetryable e = true ∧ k < 3)) :
    runRetry op fuel k = ⟨.error e, k, []⟩ := by
  cases fuel with
  | zero => rw [runRetry.eq_def, h]
  | succ n =>
    rw [runRetry.eq_def, h]
    simp only [if_neg hc]

/-- Attempt numbers produced by the retry loop stay between the starting
attempt and the `stop_after_attempt(3)` bound. -/
theorem runRetry_attempts_bounds (op : ℕ → Except GmapsError α) (fuel : ℕ) :
    ∀ k, k ≤ (runRetry op fuel k).attempts ∧ (runRetry op fuel k).attempts ≤ max k 3 := by
  induction fuel with
  | zero =>
    intro k
    cases h : op k with
    | ok v => rw [runRetry_ok op 0 k v h]; dsimp only; omega
    | error e => rw [runRetry_error_zero op k e h]; dsimp only; omega
  | succ n ih =>
    intro k
    cases h : op k with
    | ok v => rw [runRetry_ok op (n + 1) k v h]; dsimp only; omega
    | error e =>
      by_cases hc : isRetryable e = true ∧ k < 3
      · rw [runRetry_error_retry op n k e h hc.1 hc.2]
        have hrec := ih (k + 1)
        dsimp only at hrec ⊢
        omega
      · rw [runRetry_error_stop op (n + 1) k e h hc]
        dsimp only
        omega

/-- C3 counterexample: with a transport error on every attempt, the waits
actually slept are `[2, 2]` — computed by tenacity as
`max(min_wait, min(multiplier * 2 ** (k-1), max_wait))` with
`multiplier=1, min=2, max=10` — so they are not strictly increasing and the
first wait is not `min(max_wait, base_wait * 2 ** 0) = 1` as claimed. -/
theorem c3_wait_counterexample :
    (execute_with_retry
        (fun _ => Except.error (GmapsError.transport "timeout") :
          ℕ → Except GmapsError Unit)).waits = [2, 2] ∧
    ¬ List.Chain' (· < ·)
        (execute_with_retry
          (fun _ => Except.error (GmapsError.transport "timeout") :
            ℕ → Except GmapsError Unit)).waits ∧
    (2 : ℚ) ≠ min 10 (1 * 2 ^ (1 - 1)) := by
  have hw : (execute_with_retry
      (fun _ => Except.error (GmapsError.transport "timeout") :
        ℕ → Except GmapsError Unit)).waits = [2, 2] := by
    unfold execute_with_retry
    rw [runRetry_error_retry _ 2 1 (GmapsError.transport "timeout") rfl rfl (by norm_num),
      runRetry_error_retry _ 1 2 (GmapsError.transport "timeout") rfl rfl (by norm_num),
      runRetry_error_stop _ 1 3 (GmapsError.transport "timeout") rfl (by simp)]
    dsimp only
    norm_num [wait_exponential]
  refine ⟨hw, ?_, by norm_num⟩
  rw [hw]
  simp [List.chain'_cons]

/-- C3 amended: `_execute_with_retry` makes at most 3 attempts and retries
only transport errors — an API error on the first attempt yields exactly 1
attempt, a transport error on every attempt yields exactly 3 — and before
retry `k` it waits `max(min_wait, min(multiplier * 2 ** (k-1), max_wait))`
with multiplier 1, a 2-unit floor and a 10-unit ceiling, so both waits
equal 2 units: nondecreasing and capped, but not strictly increasing. -/
theorem c3_retry_policy (op : ℕ → Except GmapsError α) :
    1 ≤ (execute_with_retry op).attempts ∧
    (execute_with_retry op).attempts ≤ 3 ∧
    (∀ msg, op 1 = Except.error (GmapsError.api msg) →
      (execute_with_retry op).attempts = 1 ∧ (execute_with_retry op).waits = []) ∧
    ((∀ k, ∃ msg, op k = Except.error (GmapsError.transport msg)) →
      (execute_with_retry op).attempts = 3 ∧
      (execute_with_retry op).waits =
        [wait_exponential 1 2 10 1, wait_exponential 1 2 10 2] ∧
      (execute_with_retry op).waits = [2, 2] ∧
      List.Chain' (· ≤ ·) (execute_with_retry op).waits ∧
      ∀ w ∈ (execute_with_retry op).waits, w ≤ 10) := by
  have hb := runRetry_attempts_bounds op 3 1
  refine ⟨hb.1, by simpa using hb.2, ?_, ?_⟩
  · intro msg h1
    unfold execute_with_retry
    rw [runRetry_error_stop op 3 1 _ h1 (by simp [isRetryable])]
    exact ⟨rfl, rfl⟩
  · intro hall
    obtain ⟨m1, h1⟩ := hall 1
    obtain ⟨m2, h2⟩ := hall 2
    obtain ⟨m3, h3⟩ := hall 3
    have hstep : execute_with_retry op =
        ⟨Except.error (GmapsError.transport m3), 3,
          [wait_exponential 1 2 10 1, wait_exponential 1 2 10 2]⟩ := by
      unfold execute_with_retry
      rw [runRetry_error_retry op 2 1 (GmapsError.transport m1) h1 rfl (by norm_num),
        runRetry_error_retry op 1 2 (GmapsError.transport m2) h2 rfl (by norm_num),
        runRetry_error_stop op 1 3 (GmapsError.transport m3) h3 (by simp)]
    have hw1 : wait_exponential 1 2 10 1 = 2 := by norm_num [wait_exponential]
    have hw2 : wait_exponential 1 2 10 2 = 2 := by norm_num [wait_exponential]
    rw [hstep]
    dsimp only
    refine ⟨rfl, rfl, ?_, ?_, ?_⟩
    · rw [hw1, hw2]
    · rw [hw1, hw2]
      simp [List.chain'_cons]
    · rw [hw1, hw2]
      intro w hw
      simp only [List.mem_cons, List.not_mem_nil, or_false] at hw
      rcases hw with h | h <;> rw [h] <;> norm_num

/-- Witness for C3: an API error on attempt 1 yields one attempt; a
transport error on every attempt yields three. -/
theorem c3_retry_policy_witness :
    (execute_with_retry
        (fun _ => Except.error (GmapsError.api "REQUEST_DENIED") :
          ℕ → Except GmapsError Unit)).attempts = 1 ∧
    (execute_with_retry
        (fun _ => Except.error (GmapsError.transport "reset") :
          ℕ → Except GmapsError Unit)).attempts = 3 :=
  ⟨((c3_retry_policy
        (fun _ => Except.error (GmapsError.api "REQUEST_DENIED"))).2.2.1
      "REQUEST_DENIED" rfl).1,
    ((c3_retry_policy
        (fun _ => Except.error (GmapsError.transport "reset"))).2.2.2
      (fun _ => ⟨"reset", rfl⟩)).1⟩


/-- `round(x, 1)` is the identity on integers. -/
theorem roundTo1_intCast (n : ℤ) : roundTo1 (n : ℚ) = n := by
  unfold roundTo1 roundHalfEven
  have h : ((n : ℚ) * 10) = ((10 * n : ℤ) : ℚ) := by push_cast; ring
  rw [h, Int.floor_intCast]
  norm_num

/-- The traffic risk/sub-score pair takes exactly three values. -/
theorem trafficRiskScore_cases (leg : SafetyLeg) :
    trafficRiskScore leg = ("High", 4) ∨ trafficRiskScore leg = ("Moderate", 7) ∨
      trafficRiskScore leg = ("Low", 10) := by
  unfold trafficRiskScore
  dsimp only
  split_ifs <;> tauto

/-- The road risk/sub-score/max-limit triple takes exactly four shapes. -/
theorem roadRiskScore_cases (s : Except String (List ℚ)) :
    roadRiskScore s = ("Unknown", 5, 0) ∨
      ∃ m, roadRiskScore s = ("High Speed", 6, m) ∨
        roadRiskScore s = ("Moderate Speed", 8, m) ∨
        roadRiskScore s = ("Low Speed", 9, m) := by
  unfold roadRiskScore
  cases s with
  | error e => left; rfl
  | ok speeds =>
    cases h : speeds.max? with
    | none =>
      left
      dsimp only
      rw [h]
    | some m =>
      right
      refine ⟨m, ?_⟩
      dsimp only
      rw [h]
      dsimp only
      split_ifs <;> tauto

/-- The time-of-day risk/sub-score pair takes exactly two values. -/
theorem timeRiskScore_cases (hour : ℕ) :
    timeRiskScore hour = ("Night", 6) ∨ timeRiskScore hour = ("Day", 10) := by
  unfold timeRiskScore
  split_ifs <;> tauto

/-- C4 confirmed: the composite safety score is
`traffic_sub*4 + road_sub*4 + time_sub*2`, the risk level is High below 60,
Moderate in [60, 80) and Low at or above 80, and the spec's example
(traffic ratio 1.05, max speed limit 50, departure hour 12) scores
10*4 + 9*4 + 10*2 = 96 with risk level Low. -/
theorem c4_safety_score (leg : SafetyLeg) (speedStep : Except String (List ℚ))
    (hour : ℕ) :
    ((buildAssessment leg speedStep hour).safety_score =
      (trafficRiskScore leg).2 * 4 + (roadRiskScore speedStep).2.1 * 4 +
        (timeRiskScore hour).2 * 2 ∧
      ((buildAssessment leg speedStep hour).risk_level = "High" ↔
        (buildAssessment leg speedStep hour).safety_score < 60) ∧
      ((buildAssessment leg speedStep hour).risk_level = "Moderate" ↔
        60 ≤ (buildAssessment leg speedStep hour).safety_score ∧
          (buildAssessment leg speedStep hour).safety_score < 80) ∧
      ((buildAssessment leg speedStep hour).risk_level = "Low" ↔
        80 ≤ (buildAssessment leg speedStep hour).safety_score)) ∧
    (buildAssessment ⟨100, some 105⟩ (Except.ok [50]) 12).safety_score = 96 ∧
    (buildAssessment ⟨100, some 105⟩ (Except.ok [50]) 12).risk_level = "Low" ∧
    (buildAssessment ⟨100, some 105⟩ (Except.ok [50]) 12).traffic_risk = "Low" ∧
    (buildAssessment ⟨100, some 105⟩ (Except.ok [50]) 12).road_risk = "Low Speed" ∧
    (buildAssessment ⟨100, some 105⟩ (Except.ok [50]) 12).time_risk = "Day" := by
  constructor
  · obtain htr | htr | htr := trafficRiskScore_cases leg <;>
      obtain hrr | ⟨m, hrr | hrr | hrr⟩ := roadRiskScore_cases speedStep <;>
      obtain hti | hti := timeRiskScore_cases hour <;>
      simp only [buildAssessment, htr, hrr, hti] <;>
      norm_num [roundTo1, roundHalfEven] <;>
      try decide
  · have h1 : trafficRiskScore ⟨100, some 105⟩ = ("Low", 10) := by
      unfold trafficRiskScore
      norm_num
    have h2 : roadRiskScore (Except.ok [50]) = ("Low Speed", 9, 50) := by
      unfold roadRiskScore
      have hmax : (([50] : List ℚ)).max? = some 50 := rfl
      dsimp only
      rw [hmax]
      norm_num
    have h3 : timeRiskScore 12 = ("Day", 10) := by
      unfold timeRiskScore
      norm_num
    simp only [buildAssessment, h1, h2, h3]
    norm_num [roundTo1, roundHalfEven]


/-- C5 confirmed: when the snap-to-roads / speed-limit step raises, the
route-safety tool still returns a success envelope whose assessment has
road risk "Unknown", the neutral road sub-score 5.0 inside the composite
score, and a null max speed limit. -/
theorem c5_graceful_degradation (leg : SafetyLeg) (rest : List SafetyLeg)
    (hour : ℕ) (msg : String) :
    (executeSafety (leg :: rest) (Except.error msg) hour).status = "success" ∧
    (executeSafety (leg :: rest) (Except.error msg) hour).data =
      some (some (buildAssessment leg (Except.error msg) hour)) ∧
    (buildAssessment leg (Except.error msg) hour).road_risk = "Unknown" ∧
    (buildAssessment leg (Except.error msg) hour).max_speed_limit_kmh = none ∧
    roadRiskScore (Except.error msg) = ("Unknown", 5, 0) ∧
    (buildAssessment leg (Except.error msg) hour).safety_score =
      (trafficRiskScore leg).2 * 4 + 5 * 4 + (timeRiskScore hour).2 * 2 := by
  have hrr : roadRiskScore (Except.error msg) = ("Unknown", 5, 0) := rfl
  refine ⟨rfl, rfl, rfl, ?_, hrr, ?_⟩
  · simp only [buildAssessment, hrr]
    norm_num
  · obtain htr | htr | htr := trafficRiskScore_cases leg <;>
      obtain hti | hti := timeRiskScore_cases hour <;>
      simp only [buildAssessment, htr, hrr, hti] <;>
      norm_num [roundTo1, roundHalfEven]

/-- C6 confirmed: delay is `max(0, traffic - normal)` reported in minutes
rounded to one decimal, congestion is Heavy exactly above ratio 1.3,
Moderate exactly on (1.1, 1.3], otherwise Low (a zero normal duration is
Low), and the spec's examples hold: 1000s/1050s is Low with 0.8 delay
minutes, 1000s/1400s is Heavy with 6.7. -/
theorem c6_congestion (leg : TrafficLeg) :
    (trafficAnalysis leg).delay_minutes =
      roundTo1 (max 0 (leg.durationInTraffic.getD leg.duration - leg.duration) / 60) ∧
    (0 < leg.duration →
      (((trafficAnalysis leg).congestion_level = "Heavy" ↔
          leg.durationInTraffic.getD leg.duration / leg.duration > 13 / 10) ∧
        ((trafficAnalysis leg).congestion_level = "Moderate" ↔
          11 / 10 < leg.durationInTraffic.getD leg.duration / leg.duration ∧
            leg.durationInTraffic.getD leg.duration / leg.duration ≤ 13 / 10) ∧
        ((trafficAnalysis leg).congestion_level = "Low" ↔
          leg.durationInTraffic.getD leg.duration / leg.duration ≤ 11 / 10))) ∧
    (leg.duration = 0 → (trafficAnalysis leg).congestion_level = "Low") ∧
    trafficAnalysis ⟨1000, some 1050⟩ = ⟨8 / 10, "Low"⟩ ∧
    trafficAnalysis ⟨1000, some 1400⟩ = ⟨67 / 10, "Heavy"⟩ := by
  refine ⟨rfl, ?_, ?_, ?_, ?_⟩
  · intro hd
    unfold trafficAnalysis
    dsimp only
    rw [if_pos hd]
    split_ifs with h1 h2
    · refine ⟨iff_of_true rfl h1, ?_, ?_⟩
      · apply iff_of_false (by decide)
        rintro ⟨-, hc⟩
        exact absurd h1 (not_lt.mpr hc)
      · apply iff_of_false (by decide)
        intro hc
        linarith
    · exact ⟨iff_of_false (by decide) h1,
        iff_of_true rfl ⟨h2, not_lt.mp h1⟩,
        iff_of_false (by decide) (not_le.mpr h2)⟩
    · refine ⟨iff_of_false (by decide) h1, ?_, iff_of_true rfl (not_lt.mp h2)⟩
      apply iff_of_false (by decide)
      rintro ⟨hc, -⟩
      exact h2 hc
  · intro h0
    unfold trafficAnalysis
    dsimp only
    rw [h0]
    norm_num
  · unfold trafficAnalysis
    dsimp only
    norm_num [roundTo1, roundHalfEven, max_def, TrafficAnalysis.mk.injEq]
  · unfold trafficAnalysis
    dsimp only
    norm_num [roundTo1, roundHalfEven, max_def, TrafficAnalysis.mk.injEq]

/-- Witness for C6: at 1000s normal / 1050s in traffic the hypotheses hold
and the congestion level is Low. -/
theorem c6_congestion_witness :
    (trafficAnalysis ⟨1000, some 1050⟩).congestion_level = "Low" :=
  (((c6_congestion ⟨1000, some 1050⟩).2.1 (by norm_num)).2.2).mpr
    (by dsimp only; norm_num)


/-- The severity penalty loop subtracts 5 per CRITICAL, 3 per HIGH and 1
per MEDIUM violation. -/
theorem foldl_severityPenalty (vs : List Violation) :
    ∀ c : ℚ, vs.foldl severityPenalty c =
      c - 5 * (vs.countP (fun v => v.severity == "CRITICAL") : ℚ)
        - 3 * (vs.countP (fun v => v.severity == "HIGH") : ℚ)
        - 1 * (vs.countP (fun v => v.severity == "MEDIUM") : ℚ) := by
  induction vs with
  | nil =>
    intro c
    simp
  | cons v vs ih =>
    intro c
    rw [List.foldl_cons, ih, List.countP_cons, List.countP_cons, List.countP_cons]
    by_cases h1 : v.severity = "CRITICAL"
    · rw [show severityPenalty c v = c - 5 from by unfold severityPenalty; rw [if_pos h1],
        beq_iff_eq.mpr h1,
        show (v.severity == "HIGH") = false from by rw [h1]; decide,
        show (v.severity == "MEDIUM") = false from by rw [h1]; decide]
      simp only [if_true, Bool.false_eq_true, if_false]
      push_cast
      ring
    · by_cases h2 : v.severity = "HIGH"
      · rw [show severityPenalty c v = c - 3 from by
            unfold severityPenalty; rw [if_neg h1, if_pos h2],
          beq_eq_false_iff_ne.mpr h1, beq_iff_eq.mpr h2,
          show (v.severity == "MEDIUM") = false from by rw [h2]; decide]
        simp only [if_true, Bool.false_eq_true, if_false]
        push_cast
        ring
      · by_cases h3 : v.severity = "MEDIUM"
        · rw [show severityPenalty c v = c - 1 from by
              unfold severityPenalty; rw [if_neg h1, if_neg h2, if_pos h3],
            beq_eq_false_iff_ne.mpr h1, beq_eq_false_iff_ne.mpr h2,
            beq_iff_eq.mpr h3]
          simp only [if_true, Bool.false_eq_true, if_false]
          push_cast
          ring
        · rw [show severityPenalty c v = c from by
              unfold severityPenalty; rw [if_neg h1, if_neg h2, if_neg h3],
            beq_eq_false_iff_ne.mpr h1, beq_eq_false_iff_ne.mpr h2,
            beq_eq_false_iff_ne.mpr h3]
          simp only [if_true, Bool.false_eq_true, if_false]
          push_cast
          ring

/-- C7 confirmed: for a nonempty trace the compliance score is
`100 * (1 - violations/points)` penalized 5/3/1 per CRITICAL/HIGH/MEDIUM
violation and clamped to `[0, 100]`; the bounds hold for every trace and
violation list. -/
theorem c7_compliance_bounds (gps_trace : List GPSPoint)
    (violations : List Violation) :
    0 ≤ calculate_compliance_score gps_trace violations ∧
    calculate_compliance_score gps_trace violations ≤ 100 ∧
    (gps_trace ≠ [] →
      calculate_compliance_score gps_trace violations =
        max 0 (min 100
          ((1 - (violations.length : ℚ) / (gps_trace.length : ℚ)) * 100
            - 5 * (violations.countP (fun v => v.severity == "CRITICAL") : ℚ)
            - 3 * (violations.countP (fun v => v.severity == "HIGH") : ℚ)
            - 1 * (violations.countP (fun v => v.severity == "MEDIUM") : ℚ)))) := by
  unfold calculate_compliance_score
  by_cases h : gps_trace = []
  · rw [if_pos h]
    exact ⟨by norm_num, by norm_num, fun hne => absurd h hne⟩
  · rw [if_neg h]
    dsimp only
    refine ⟨le_max_left _ _, max_le (by norm_num) (min_le_left _ _), fun _ => ?_⟩
    rw [foldl_severityPenalty]

/-- Witness for C7: a one-point trace with no violations scores exactly the
clamped formula value. -/
theorem c7_compliance_bounds_witness :
    0 ≤ calculate_compliance_score [⟨0, 0, none⟩] [] ∧
    calculate_compliance_score [⟨0, 0, none⟩] [] =
      max 0 (min 100
        ((1 - (([] : List Violation).length : ℚ) /
            (([⟨0, 0, none⟩] : List GPSPoint).length : ℚ)) * 100
          - 5 * ((([] : List Violation).countP (fun v => v.severity == "CRITICAL")) : ℚ)
          - 3 * ((([] : List Violation).countP (fun v => v.severity == "HIGH")) : ℚ)
          - 1 * ((([] : List Violation).countP (fun v => v.severity == "MEDIUM")) : ℚ))) :=
  ⟨(c7_compliance_bounds [⟨0, 0, none⟩] []).1,
    (c7_compliance_bounds [⟨0, 0, none⟩] []).2.2 (List.cons_ne_nil _ _)⟩


/-- The violation-detection loop keeps exactly the enumerated points whose
segment has a truthy speed limit, whose index lies within the trace, and
whose vehicle speed exceeds the limit. -/
theorem detectViolationsFrom_eq_filterMap (speed_limits : String → Option ℚ)
    (gps_trace : List GPSPoint) (ps : List (ℕ × SnappedPoint)) :
    detectViolationsFrom speed_limits gps_trace ps =
      ps.filterMap (fun p =>
        match speed_limits p.2.place_id with
        | none => none
        | some sl =>
          if sl ≠ 0 ∧ p.1 < gps_trace.length ∧ vehicleSpeedAt gps_trace p.1 > sl then
            some (mkViolation p.2 sl (vehicleSpeedAt gps_trace p.1))
          else none) := by
  induction ps with
  | nil => rfl
  | cons p ps ih =>
    obtain ⟨i, point⟩ := p
    rw [List.filterMap_cons]
    cases h : speed_limits point.place_id with
    | none =>
      simp only [detectViolationsFrom, h, ih]
    | some sl =>
      by_cases hc : sl ≠ 0 ∧ i < gps_trace.length
      · by_cases hv : vehicleSpeedAt gps_trace i > sl
        · have hc3 : sl ≠ 0 ∧ i < gps_trace.length ∧ vehicleSpeedAt gps_trace i > sl :=
            ⟨hc.1, hc.2, hv⟩
          simp only [detectViolationsFrom, h, ih, if_pos hc, if_pos hv, if_pos hc3]
        · have hc3 : ¬(sl ≠ 0 ∧ i < gps_trace.length ∧ vehicleSpeedAt gps_trace i > sl) :=
            fun hx => hv hx.2.2
          simp only [detectViolationsFrom, h, ih, if_pos hc, if_neg hv, if_neg hc3]
      · have hc3 : ¬(sl ≠ 0 ∧ i < gps_trace.length ∧ vehicleSpeedAt gps_trace i > sl) :=
          fun hx => hc ⟨hx.1, hx.2.1⟩
        simp only [detectViolationsFrom, h, ih, if_neg hc, if_neg hc3]

/-- C8 confirmed: a point with a known (truthy) speed limit is recorded as
a violation exactly when the vehicle speed exceeds the limit; the recorded
overage and overage percentage follow the stated formulas; the severity
thresholds at 50/25/10 percent are all exclusive, so 45 over a limit of 30
(exactly 50.0 percent) is HIGH, while just above 50 percent is CRITICAL. -/
theorem c8_violation_severity (snapped : List SnappedPoint)
    (gps_trace : List GPSPoint) (speed_limits : String → Option ℚ)
    (point : SnappedPoint) (vehicle_speed speed_limit : ℚ) :
    (detect_violations snapped gps_trace speed_limits =
      snapped.enum.filterMap (fun p =>
        match speed_limits p.2.place_id with
        | none => none
        | some sl =>
          if sl ≠ 0 ∧ p.1 < gps_trace.length ∧ vehicleSpeedAt gps_trace p.1 > sl then
            some (mkViolation p.2 sl (vehicleSpeedAt gps_trace p.1))
          else none)) ∧
    ((mkViolation point speed_limit vehicle_speed).overage =
        vehicle_speed - speed_limit ∧
      (mkViolation point speed_limit vehicle_speed).overage_percent =
        (vehicle_speed - speed_limit) / speed_limit * 100 ∧
      (mkViolation point speed_limit vehicle_speed).severity =
        get_violation_severity vehicle_speed speed_limit) ∧
    ((get_violation_severity vehicle_speed speed_limit = "CRITICAL" ↔
        (vehicle_speed - speed_limit) / speed_limit * 100 > 50) ∧
      (get_violation_severity vehicle_speed speed_limit = "HIGH" ↔
        25 < (vehicle_speed - speed_limit) / speed_limit * 100 ∧
          (vehicle_speed - speed_limit) / speed_limit * 100 ≤ 50) ∧
      (get_violation_severity vehicle_speed speed_limit = "MEDIUM" ↔
        10 < (vehicle_speed - speed_limit) / speed_limit * 100 ∧
          (vehicle_speed - speed_limit) / speed_limit * 100 ≤ 25) ∧
      (get_violation_severity vehicle_speed speed_limit = "LOW" ↔
        (vehicle_speed - speed_limit) / speed_limit * 100 ≤ 10)) ∧
    get_violation_severity 45 30 = "HIGH" ∧
    get_violation_severity (45003 / 1000) 30 = "CRITICAL" := by
  refine ⟨detectViolationsFrom_eq_filterMap speed_limits gps_trace snapped.enum,
    ⟨rfl, rfl, rfl⟩, ?_, ?_, ?_⟩
  · unfold get_violation_severity
    dsimp only
    split_ifs with h1 h2 h3
    · refine ⟨iff_of_true rfl h1, ?_, ?_, ?_⟩
      · apply iff_of_false (by decide)
        rintro ⟨-, hc⟩
        exact absurd h1 (not_lt.mpr hc)
      · apply iff_of_false (by decide)
        rintro ⟨-, hc⟩
        linarith
      · apply iff_of_false (by decide)
        intro hc
        linarith
    · refine ⟨iff_of_false (by decide) h1,
        iff_of_true rfl ⟨h2, not_lt.mp h1⟩, ?_, ?_⟩
      · apply iff_of_false (by decide)
        rintro ⟨-, hc⟩
        exact absurd h2 (not_lt.mpr hc)
      · apply iff_of_false (by decide)
        intro hc
        linarith
    · refine ⟨iff_of_false (by decide) h1, ?_,
        iff_of_true rfl ⟨h3, not_lt.mp h2⟩, ?_⟩
      · apply iff_of_false (by decide)
        rintro ⟨hc, -⟩
        exact h2 hc
      · apply iff_of_false (by decide)
        intro hc
        exact absurd h3 (not_lt.mpr hc)
    · refine ⟨iff_of_false (by decide) h1, ?_, ?_,
        iff_of_true rfl (not_lt.mp h3)⟩
      · apply iff_of_false (by decide)
        rintro ⟨hc, -⟩
        exact h2 hc
      · apply iff_of_false (by decide)
        rintro ⟨hc, -⟩
        exact h3 hc
  · unfold get_violation_severity
    norm_num
  · unfold get_violation_severity
    norm_num


/-- Folding `insertKey` appends a block of new keys: the result is the
accumulator followed by a duplicate-free sublist of the input whose
elements are all new. -/
theorem foldl_insertKey_extends (xs : List String) :
    ∀ acc, ∃ t, xs.foldl insertKey acc = acc ++ t ∧ t.Sublist xs ∧ t.Nodup ∧
      ∀ y ∈ t, y ∉ acc := by
  induction xs with
  | nil =>
    intro acc
    exact ⟨[], by simp, by simp, by simp, by simp⟩
  | cons x xs ih =>
    intro acc
    by_cases hx : x ∈ acc
    · have hins : insertKey acc x = acc := if_pos hx
      obtain ⟨t, h1, h2, h3, h4⟩ := ih acc
      refine ⟨t, ?_, h2.cons x, h3, h4⟩
      rw [List.foldl_cons, hins, h1]
    · have hins : insertKey acc x = acc ++ [x] := if_neg hx
      obtain ⟨t, h1, h2, h3, h4⟩ := ih (acc ++ [x])
      refine ⟨x :: t, ?_, h2.cons₂ x, ?_, ?_⟩
      · rw [List.foldl_cons, hins, h1, List.append_assoc, List.singleton_append]
      · exact List.nodup_cons.mpr ⟨fun hxt => h4 x hxt (by simp), h3⟩
      · intro y hy
        rcases List.mem_cons.mp hy with rfl | hyt
        · exact hx
        · exact fun hyacc => h4 y hyt (List.mem_append_left _ hyacc)

/-- Membership in an `insertKey` fold: exactly the accumulator's and the
input's elements. -/
theorem mem_foldl_insertKey (xs : List String) :
    ∀ acc x, x ∈ xs.foldl insertKey acc ↔ x ∈ acc ∨ x ∈ xs := by
  induction xs with
  | nil => simp
  | cons a xs ih =>
    intro acc x
    rw [List.foldl_cons, ih]
    unfold insertKey
    split_ifs with ha
    · constructor
      · rintro (h | h)
        · exact Or.inl h
        · exact Or.inr (List.mem_cons_of_mem _ h)
      · rintro (h | h)
        · exact Or.inl h
        · rcases List.mem_cons.mp h with rfl | h2
          · exact Or.inl ha
          · exact Or.inr h2
    · simp only [List.mem_append, List.mem_singleton, List.mem_cons]
      tauto

/-- The accumulator is left intact at the front by an `insertKey` fold. -/
theorem foldl_insertKey_extends_front (xs : List String) :
    ∀ acc, acc <+: xs.foldl insertKey acc := by
  induction xs with
  | nil =>
    intro acc
    exact ⟨[], List.append_nil acc⟩
  | cons a xs ih =>
    intro acc
    rw [List.foldl_cons]
    have h1 : acc <+: insertKey acc a := by
      unfold insertKey
      split_ifs
      · exact ⟨[], List.append_nil acc⟩
      · exact ⟨[a], rfl⟩
    exact h1.trans (ih (insertKey acc a))

/-- C9 confirmed: `list(dict.fromkeys(place_ids))` is duplicate-free, keeps
exactly the input's identifiers, preserves their order of first occurrence
(the dedup of every prefix of the input is a prefix of the dedup, and the
dedup is a sublist of the input), and the speed-limit lookup is a single
call in which each distinct identifier appears exactly once. -/
theorem c9_dedup_single_lookup (place_ids : List String) :
    (unique_place_ids place_ids).Nodup ∧
    (∀ x, x ∈ unique_place_ids place_ids ↔ x ∈ place_ids) ∧
    (unique_place_ids place_ids).Sublist place_ids ∧
    (∀ n, unique_place_ids (place_ids.take n) <+: unique_place_ids place_ids) ∧
    (speed_limit_calls place_ids).length = 1 ∧
    (∀ x ∈ place_ids,
      ((speed_limit_calls place_ids).foldr (· ++ ·) []).count x = 1) := by
  obtain ⟨t, h1, h2, h3, h4⟩ := foldl_insertKey_extends place_ids []
  have hu : unique_place_ids place_ids = t := by
    unfold unique_place_ids
    rw [h1, List.nil_append]
  have hnd : (unique_place_ids place_ids).Nodup := by rw [hu]; exact h3
  refine ⟨hnd, ?_, ?_, ?_, rfl, ?_⟩
  · intro x
    unfold unique_place_ids
    rw [mem_foldl_insertKey]
    simp
  · rw [hu]
    exact h2
  · intro n
    unfold unique_place_ids
    conv_rhs => rw [← List.take_append_drop n place_ids]
    rw [List.foldl_append]
    exact foldl_insertKey_extends_front (place_ids.drop n) _
  · intro x hx
    have hjoin : (speed_limit_calls place_ids).foldr (· ++ ·) [] =
        unique_place_ids place_ids := by
      unfold speed_limit_calls
      simp
    rw [hjoin]
    have hmem : x ∈ unique_place_ids place_ids := by
      unfold unique_place_ids
      rw [mem_foldl_insertKey]
      exact Or.inr hx
    exact List.count_eq_one_of_mem hnd hmem

/-- Witness for C9: on `["a", "b", "a"]` the dedup is duplicate-free and
the identifier `"a"` appears exactly once across the single lookup call. -/
theorem c9_dedup_single_lookup_witness :
    (unique_place_ids ["a", "b", "a"]).Nodup ∧
    ((speed_limit_calls ["a", "b", "a"]).foldr (· ++ ·) []).count "a" = 1 :=
  ⟨(c9_dedup_single_lookup ["a", "b", "a"]).1,
    (c9_dedup_single_lookup ["a", "b", "a"]).2.2.2.2.2 "a" (by simp)⟩

/-- C10 confirmed: when a leg carries no `duration_in_traffic`, both tools
substitute the normal duration: the traffic tool reports zero delay minutes
and Low congestion inside a success envelope, and the safety scorer's
traffic risk is Low with sub-score 10. -/
theorem c10_missing_duration_in_traffic (d : ℚ) (rest : List TrafficLeg)
    (srest : List SafetyLeg) (speedStep : Except String (List ℚ)) (hour : ℕ) :
    (executeTraffic (⟨d, none⟩ :: rest)).status = "success" ∧
    (trafficAnalysis ⟨d, none⟩).delay_minutes = 0 ∧
    (trafficAnalysis ⟨d, none⟩).congestion_level = "Low" ∧
    trafficRiskScore ⟨d, none⟩ = ("Low", 10) ∧
    (executeSafety (⟨d, none⟩ :: srest) speedStep hour).status = "success" := by
  refine ⟨rfl, ?_, ?_, ?_, rfl⟩
  · unfold trafficAnalysis
    dsimp only
    simp only [Option.getD_none, sub_self]
    norm_num [roundTo1, roundHalfEven]
  · unfold trafficAnalysis
    dsimp only
    simp only [Option.getD_none]
    by_cases hd : d > 0
    · rw [if_pos hd]
      simp only [div_self (ne_of_gt hd)]
      norm_num
    · rw [if_neg hd]
  · unfold trafficRiskScore
    dsimp only
    simp only [Option.getD_none]
    by_cases hd : d > 0
    · rw [if_pos hd]
      simp only [div_self (ne_of_gt hd)]
      norm_num
    · rw [if_neg hd]

end GmapsMcp
